import Mathlib

/-!
Verification development for the `unity.py` analyzer: a shallow embedding of
its security screening, module loading, docstring test extraction, literal
call parsing, parameter validation, test execution, performance sampling and
report assembly, followed by theorems settling the specification claims.

Modelling conventions:
* Python strings are `String` / `List Char`; the regex fragments the source
  uses are embedded as deterministic scanners (each of those fragments is
  backtracking-free, as argued at each definition).
* Python numbers are `Int` and, for floats, exact `Rat` values (the float
  literal `1e-9` is idealised as the rational 10⁻⁹).
* Host collaborators (the `ast` parser, `importlib` dynamic load,
  `inspect.signature`) are represented by oracle fields on the file model,
  exactly as the spec describes them as collaborator interfaces.
* Real-time measurements (wall clock, CPU, RSS) are not modelled; only the
  control flow and counters of the sampling loop are.
-/

namespace Unity

/-- Python `str.strip` / `\s` whitespace set: space, tab, newline, carriage
return, vertical tab, form feed. -/
def isPySpace (c : Char) : Bool :=
  c == ' ' || c == '\t' || c == '\n' || c == '\r' || c == '\x0b' || c == '\x0c'

/-- ASCII model of the regex class `\w` = `[A-Za-z0-9_]`. -/
def isWordChar (c : Char) : Bool :=
  c.isAlpha || c.isDigit || c == '_'

/-- ASCII lower-casing, modelling `str.lower` / `re.IGNORECASE` on the ASCII
pattern alphabet used by the source. -/
def lowerChar (c : Char) : Char :=
  if 'A' ≤ c && c ≤ 'Z' then Char.ofNat (c.toNat + 32) else c

def lowerStr (s : List Char) : List Char :=
  s.map lowerChar

/-- Python `str.strip()` on a character list. -/
def pyStrip (s : List Char) : List Char :=
  ((s.dropWhile isPySpace).reverse.dropWhile isPySpace).reverse

/-- Python `str.split(',')`: splits at every comma; `""` yields `[""]`. -/
def splitComma : List Char → List (List Char)
  | [] => [[]]
  | c :: rest =>
    let r := splitComma rest
    if c == ',' then [] :: r
    else
      match r with
      | h :: t => (c :: h) :: t
      | [] => [[c]]

/-- The maximal digit run at the head of `s`: `some (digits, rest)` when the
run is nonempty (the regex atom `\d+`). -/
def digits1 (s : List Char) : Option (List Char × List Char) :=
  let d := s.takeWhile Char.isDigit
  if d.isEmpty then none else some (d, s.drop d.length)

/-- Full-string match of `^-?\d+(\.\d+)?$` (the argument number test in
`_parse_function_call`).  The regex is backtracking-free: `-?` commits iff a
digit follows, `\d+` is maximal, the optional fraction is maximal. -/
def matchNumber (s : List Char) : Bool :=
  let body := match s with
    | '-' :: t => t
    | t => t
  match digits1 body with
  | none => false
  | some (_, rest) =>
    match rest with
    | [] => true
    | '.' :: r2 =>
      match digits1 r2 with
      | some (_, []) => true
      | _ => false
    | _ => false

/-- Value of a nonempty decimal digit run. -/
def natOfDigits (d : List Char) : Nat :=
  d.foldl (fun acc c => 10 * acc + (c.toNat - '0'.toNat)) 0

/-- `int(s)` on a string matching `-?\d+`. -/
def intOfText (s : List Char) : Int :=
  match s with
  | '-' :: t => - (natOfDigits t : Int)
  | t => (natOfDigits t : Int)

/-- `float(s)` on a string matching `-?\d+(\.\d+)?`, as an exact rational. -/
def ratOfNumText (s : List Char) : Rat :=
  let (neg, t) := match s with
    | '-' :: t => (true, t)
    | t => (false, t)
  let ip := t.takeWhile Char.isDigit
  let rest := t.drop ip.length
  let q : Rat :=
    match rest with
    | '.' :: fr => (natOfDigits ip : Rat) + (natOfDigits fr : Rat) / ((10 : Rat) ^ fr.length)
    | _ => (natOfDigits ip : Rat)
  if neg then -q else q

/-- The closed union of Python values this tool manipulates: ints, floats
(idealised as rationals), strings, booleans, `None`, and lists. -/
inductive Value where
  | int (n : Int)
  | float (q : Rat)
  | str (s : String)
  | bool (b : Bool)
  | none
  | list (xs : List Value)

/-- `isinstance(v, (int, float))` — in Python `bool` is a subclass of `int`,
so booleans land in the numeric branch. -/
def isPyNumeric : Value → Bool
  | .int _ => true
  | .float _ => true
  | .bool _ => true
  | _ => false

/-- Numeric content of a numeric `Value` (Python arithmetic coercion of
`int`, `float` and `bool`). -/
def toRat : Value → Rat
  | .int n => (n : Rat)
  | .float q => q
  | .bool b => if b then 1 else 0
  | _ => 0

mutual
/-- Python `==` on the embedded value union: cross-kind numeric equality
(`True == 1.0` holds), structural equality on strings, `None` and lists, and
`False` across distinct non-numeric kinds. -/
def pyEq : Value → Value → Bool
  | .int a, .int b => a == b
  | .int a, .float q => ((a : Rat)) == q
  | .int a, .bool b => a == (if b then (1 : Int) else 0)
  | .float p, .int b => p == ((b : Rat))
  | .float p, .float q => p == q
  | .float p, .bool b => p == (if b then (1 : Rat) else 0)
  | .bool a, .int b => (if a then (1 : Int) else 0) == b
  | .bool a, .float q => (if a then (1 : Rat) else 0) == q
  | .bool a, .bool b => a == b
  | .str a, .str b => a == b
  | .none, .none => true
  | .list xs, .list ys => pyEqList xs ys
  | _, _ => false

def pyEqList : List Value → List Value → Bool
  | [], [] => true
  | a :: as, b :: bs => pyEq a b && pyEqList as bs
  | _, _ => false
end

/-- `ast.literal_eval`, modelled on the comma-free fragment reachable from
`_parse_function_call` (the argument was produced by splitting on every
comma, so the literal can contain no comma: lists have at most one element).
This models the host stdlib collaborator, not repository code. -/
def evalLiteral : Nat → List Char → Option Value
  | 0, _ => none
  | fuel + 1, s =>
    let t := pyStrip s
    if matchNumber t then
      some (if t.contains '.' then .float (ratOfNumText t) else .int (intOfText t))
    else if t == "True".data then some (.bool true)
    else if t == "False".data then some (.bool false)
    else if t == "None".data then some Value.none
    else
      match t with
      | '[' :: rest =>
        match rest.reverse with
        | ']' :: revInner =>
          let inner := pyStrip revInner.reverse
          if inner.isEmpty then some (.list [])
          else (evalLiteral fuel inner).map (fun v => .list [v])
        | _ => none
      | c :: rest =>
        -- quoted string literal without escapes or embedded quotes
        if c == '"' || c == Char.ofNat 39 then
          match rest.reverse with
          | q :: revInner =>
            if q == c && !(revInner.contains c) && !(revInner.contains '\\') then
              some (.str (String.mk revInner.reverse))
            else none
          | _ => none
        else none
      | _ => none

/-- One comma-split argument of `_parse_function_call`, after `strip()`:
number, double-quoted, single-quoted, boolean, `none`, bracketed literal, or
failure (which fails the whole call). -/
def parseArg (arg : List Char) : Option Value :=
  if matchNumber arg then
    some (if arg.contains '.' then .float (ratOfNumText arg) else .int (intOfText arg))
  else if arg.head? == some '"' && arg.getLast? == some '"' then
    some (.str (String.mk ((arg.drop 1).dropLast)))
  else if arg.head? == some (Char.ofNat 39) && arg.getLast? == some (Char.ofNat 39) then
    some (.str (String.mk ((arg.drop 1).dropLast)))
  else if lowerStr arg == "true".data then some (.bool true)
  else if lowerStr arg == "false".data then some (.bool false)
  else if lowerStr arg == "none".data then some Value.none
  else if arg.head? == some '[' && arg.getLast? == some ']' then
    evalLiteral (arg.length + 1) arg
  else none

/-- `re.match(r'\w+\((.*)\)', s)` group 1: a nonempty word-char run, `(`, then
the greedy `.*` (which cannot cross a newline) ending at the last `)` of that
newline-free stretch.  Returns the group-1 characters. -/
def matchCallShape (s : List Char) : Option (List Char) :=
  let w := s.takeWhile isWordChar
  if w.isEmpty then none
  else
    match s.drop w.length with
    | '(' :: rest =>
      let p := rest.takeWhile (· != '\n')
      match (p.reverse.dropWhile (· != ')')) with
      | ')' :: revGroup => some revGroup.reverse
      | _ => none
    | _ => none

/-- `SafeTestRunner._parse_function_call`: match the outer call shape, strip
the argument text, return `()` when empty, else split on every comma and
classify each stripped argument; any unclassifiable argument makes the whole
call unparseable (`None`). -/
def _parse_function_call (call_str : String) : Option (List Value) :=
  match matchCallShape call_str.data with
  | none => none
  | some group =>
    let args_str := pyStrip group
    if args_str.isEmpty then some []
    else (splitComma args_str).mapM (fun a => parseArg (pyStrip a))

/-! ## TestCaseExtractor -/

/-- Prefix match of the regex atom `(\w+\([^)]*\))`.  Deterministic: the
greedy `\w+` cannot shrink (the following char would still be a word char,
never `(`), and `[^)]*` necessarily stops at the first `)`. -/
def matchCallGroup (s : List Char) : Option (List Char × List Char) :=
  let w := s.takeWhile isWordChar
  if w.isEmpty then none
  else
    match s.drop w.length with
    | '(' :: rest =>
      let inner := rest.takeWhile (· != ')')
      match rest.drop inner.length with
      | ')' :: rem => some (w ++ '(' :: (inner ++ [')']), rem)
      | _ => none
    | _ => none

/-- Prefix match of the regex atom `(-?\d+(?:\.\d+)?)`: the sign commits iff a
digit follows, the digit runs are maximal, and the fractional group is taken
only when a `.` followed by a digit is present. -/
def matchNumGroup (s : List Char) : Option (List Char × List Char) :=
  let signed := match s with
    | '-' :: t => ([('-' : Char)], t)
    | t => (([] : List Char), t)
  match digits1 signed.2 with
  | none => none
  | some (d, t2) =>
    match t2 with
    | '.' :: t3 =>
      match digits1 t3 with
      | some (d2, t4) => some (signed.1 ++ d ++ '.' :: d2, t4)
      | none => some (signed.1 ++ d, t2)
    | _ => some (signed.1 ++ d, t2)

/-- The three docstring pattern families of `TestCaseExtractor`. -/
inductive ExtractPat where
  | eqeq
  | arrow
  | transcript
deriving DecidableEq

/-- The regex source text stored in the `pattern_used` field. -/
def patSource : ExtractPat → String
  | .eqeq => "(\\w+\\([^)]*\\))\\s*==\\s*(-?\\d+(?:\\.\\d+)?)"
  | .arrow => "(\\w+\\([^)]*\\))\\s*->\\s*(-?\\d+(?:\\.\\d+)?)"
  | .transcript => ">>>\\s*(\\w+\\([^)]*\\))\\s*(-?\\d+(?:\\.\\d+)?)"

/-- Match one pattern family at the current position, returning both groups
and the remainder after the match.  Each `\s*` is deterministic because the
char that must follow is never whitespace. -/
def matchPatAt : ExtractPat → List Char → Option ((List Char × List Char) × List Char)
  | .eqeq, s =>
    match matchCallGroup s with
    | none => none
    | some (g1, r1) =>
      match r1.dropWhile isPySpace with
      | '=' :: '=' :: r2 =>
        match matchNumGroup (r2.dropWhile isPySpace) with
        | some (g2, rem) => some ((g1, g2), rem)
        | none => none
      | _ => none
  | .arrow, s =>
    match matchCallGroup s with
    | none => none
    | some (g1, r1) =>
      match r1.dropWhile isPySpace with
      | '-' :: '>' :: r2 =>
        match matchNumGroup (r2.dropWhile isPySpace) with
        | some (g2, rem) => some ((g1, g2), rem)
        | none => none
      | _ => none
  | .transcript, s =>
    match s with
    | '>' :: '>' :: '>' :: r0 =>
      match matchCallGroup (r0.dropWhile isPySpace) with
      | none => none
      | some (g1, r1) =>
        match matchNumGroup (r1.dropWhile isPySpace) with
        | some (g2, rem) => some ((g1, g2), rem)
        | none => none
    | _ => none

/-- `re.findall`: scan left to right, at each position try the pattern; on a
match emit its groups and continue after the consumed text (non-overlapping),
else advance one character.  Every match here consumes at least one
character, so `length + 1` fuel is exact. -/
def findallAux (p : ExtractPat) : Nat → List Char → List (List Char × List Char)
  | 0, _ => []
  | fuel + 1, s =>
    match matchPatAt p s with
    | some (gs, rem) => gs :: findallAux p fuel rem
    | none =>
      match s with
      | [] => []
      | _ :: t => findallAux p fuel t

def findall (p : ExtractPat) (s : List Char) : List (List Char × List Char) :=
  findallAux p (s.length + 1) s

/-- A mined test case: the call-expression text, the expected value
(`float(...)` of the matched numeric text — the conversion cannot fail since
the group matched the number shape), and the pattern family that produced
it. -/
structure TestCase where
  input : String
  expected : Rat
  pattern_used : String
deriving DecidableEq

def mkTestCase (p : ExtractPat) (gs : List Char × List Char) : TestCase :=
  ⟨String.mk (pyStrip gs.1), ratOfNumText gs.2, patSource p⟩

/-- `TestCaseExtractor.extract_test_cases`: empty for a missing or empty
docstring, else the matches of the three pattern families appended in pattern
order, each family's matches in document scan order, with no
deduplication. -/
def extract_test_cases (docstring : Option String) : List TestCase :=
  match docstring with
  | Option.none => []
  | some d =>
    if d.isEmpty then []
    else
      [ExtractPat.eqeq, ExtractPat.arrow, ExtractPat.transcript].foldl
        (fun acc p => acc ++ (findall p d.data).map (mkTestCase p)) []

/-! ## SecurityConfig and CodeValidator -/

/-- Match semantics of one forbidden pattern.  Every pattern in the default
list is either a literal substring or `name\s*\(`; both are embedded as
deterministic scanners (searched case-insensitively, as `re.IGNORECASE`). -/
inductive PatKind where
  | sub (needle : String)
  | callName (w : String)

structure ForbiddenPat where
  src : String
  kind : PatKind

/-- Does `f` hold of some suffix of `s` (the positions `re.search` tries)? -/
def anySuffix (f : List Char → Bool) : List Char → Bool
  | [] => f []
  | c :: t => f (c :: t) || anySuffix f t

def containsSub (needle s : List Char) : Bool :=
  anySuffix (fun suf => needle.isPrefixOf suf) s

def callNameHit (w s : List Char) : Bool :=
  anySuffix (fun suf =>
    w.isPrefixOf suf && ((suf.drop w.length).dropWhile isPySpace).head? == some '(') s

def patternHits (k : PatKind) (code : List Char) : Bool :=
  match k with
  | .sub needle => containsSub (lowerStr needle.data) (lowerStr code)
  | .callName w => callNameHit (lowerStr w.data) (lowerStr code)

/-- The default `forbidden_patterns` list, in source order. -/
def defaultForbidden : List ForbiddenPat :=
  [⟨"__import__", .sub "__import__"⟩,
   ⟨"exec\\s*\\(", .callName "exec"⟩,
   ⟨"eval\\s*\\(", .callName "eval"⟩,
   ⟨"compile\\s*\\(", .callName "compile"⟩,
   ⟨"open\\s*\\(", .callName "open"⟩,
   ⟨"file\\s*\\(", .callName "file"⟩,
   ⟨"input\\s*\\(", .callName "input"⟩,
   ⟨"raw_input\\s*\\(", .callName "raw_input"⟩,
   ⟨"subprocess", .sub "subprocess"⟩,
   ⟨"os\\.", .sub "os."⟩,
   ⟨"sys\\.", .sub "sys."⟩,
   ⟨"socket", .sub "socket"⟩,
   ⟨"urllib", .sub "urllib"⟩,
   ⟨"requests", .sub "requests"⟩,
   ⟨"pickle", .sub "pickle"⟩,
   ⟨"marshal", .sub "marshal"⟩,
   ⟨"shelve", .sub "shelve"⟩]

/-- `SecurityConfig`, with the `__post_init__` defaults. -/
structure SecurityConfig where
  max_execution_time : Nat := 30
  max_memory_mb : Nat := 512
  max_file_size_mb : Nat := 10
  allowed_imports : List String :=
    ["math", "random", "datetime", "collections", "itertools",
     "functools", "operator", "typing", "decimal", "fractions"]
  forbidden_patterns : List ForbiddenPat := defaultForbidden

def defaultConfig : SecurityConfig := {}

/-- `SecurityError`, by failure kind, with its exact message text. -/
inductive SecErr where
  | tooLarge (bytes : Nat)
  | dangerousPattern (src : String)
  | synErr (msg : String)
  | importNotAllowed (nm : String)
deriving DecidableEq

def secErrStr : SecErr → String
  | .tooLarge n => "Archivo demasiado grande: " ++ toString n ++ " bytes"
  | .dangerousPattern s => "Patrón peligroso detectado: " ++ s
  | .synErr m => "Error de sintaxis: " ++ m
  | .importNotAllowed n => "Importación no permitida: " ++ n

/-- An `ast.Import` (list of dotted names) or `ast.ImportFrom` (module may be
`None` for relative imports) statement found while walking the tree. -/
inductive ImpStmt where
  | imp (names : List String)
  | impFrom (module : Option String)

/-- Declared parameter annotations as the `isinstance` check sees them:
checkable concrete types, or an annotation object on which `isinstance`
raises (`unchecked`, e.g. a `typing` generic). -/
inductive PyAnn where
  | int
  | float
  | str
  | bool
  | list
  | unchecked

structure ParamSpec where
  name : String
  ann : Option PyAnn
  default : Option Value

/-- Outcome of invoking a loaded callable on given arguments (under the
per-case alarm): a value, a raised exception with its `str`, or a timeout. -/
inductive ExecOutcome where
  | ok (v : Value)
  | raises (msg : String)
  | timeout

/-- A top-level function definition as produced by the host syntax-tree /
reflection collaborators: name, declared parameters, docstring, whether the
executed module exposes the name (`hasattr`), the callable's behavior on
parsed argument tuples, and its behavior on the k-th zero-argument
performance invocation (`true` = raises). -/
structure FuncDef where
  name : String
  params : List ParamSpec
  docstring : Option String
  inModule : Bool
  behavior : List Value → ExecOutcome
  perfRaisesAt : Nat → Bool

/-- A node of the parsed module body; nested import statements inside a
function body (seen by `ast.walk` but not by the top-level loop) are carried
on the definition. -/
inductive PyNode where
  | stmtImp (i : ImpStmt)
  | funcDef (fd : FuncDef) (nested : List ImpStmt)
  | other

structure PyAst where
  body : List PyNode

/-- The import statements in `ast.walk` (breadth-first) order: all top-level
imports in body order, then the imports nested under each definition. -/
def walkedImports (t : PyAst) : List ImpStmt :=
  (t.body.filterMap fun n => match n with
    | .stmtImp i => some i
    | _ => Option.none)
  ++ (t.body.foldl (fun acc n => match n with
    | .funcDef _ nested => acc ++ nested
    | _ => acc) [])

/-- First violation an import statement yields, if any (`alias.name not in
allowed_imports`, aliases in order; `node.module` may be `None`). -/
def checkImp (allowed : List String) : ImpStmt → Option SecErr
  | .imp names => (names.find? (fun nm => !allowed.contains nm)).map .importNotAllowed
  | .impFrom (some m) => if !allowed.contains m then some (.importNotAllowed m) else Option.none
  | .impFrom Option.none => Option.none

/-- `CodeValidator.validate_imports`: raise on the first disallowed import in
walk order. -/
def validate_imports (cfg : SecurityConfig) (t : PyAst) : Except SecErr Unit :=
  match (walkedImports t).findSome? (checkImp cfg.allowed_imports) with
  | some e => .error e
  | Option.none => .ok ()

/-- The candidate file as the loader observes it.  `content` is what `open`
returns; `astOf` is the `ast.parse` collaborator outcome (`.error` carries
`str` of the `SyntaxError`); `specLoadOk` models `spec_from_file_location`
succeeding; `execRaises` is the outcome of executing the module body under
the load deadline (`some msg` = some exception, timeout included, with its
`str`). -/
structure PyFile where
  path : String
  pathExists : Bool
  isfile : Bool
  size : Nat
  content : String
  astOf : Except String PyAst
  specLoadOk : Bool
  execRaises : Option String

/-- `CodeValidator.validate_file_size` (`getsize` succeeds: the loader only
validates files it has already found and read). -/
def validate_file_size (cfg : SecurityConfig) (f : PyFile) : Except SecErr Unit :=
  if f.size > cfg.max_file_size_mb * 1024 * 1024 then .error (.tooLarge f.size) else .ok ()

/-- `CodeValidator.validate_code_patterns`: first forbidden pattern found, in
list order, is reported by its regex source text. -/
def validate_code_patterns (cfg : SecurityConfig) (code : String) : Except SecErr Unit :=
  match cfg.forbidden_patterns.find? (fun p => patternHits p.kind code.data) with
  | some p => .error (.dangerousPattern p.src)
  | Option.none => .ok ()

/-- `CodeValidator.validate_code`: size, then patterns, then parse (a
`SyntaxError` is re-raised as `SecurityError`), then imports — short-circuit
on the first failure. -/
def validate_code (cfg : SecurityConfig) (f : PyFile) : Except SecErr Unit :=
  match validate_file_size cfg f with
  | .error e => .error e
  | .ok _ =>
    match validate_code_patterns cfg f.content with
    | .error e => .error e
    | .ok _ =>
      match f.astOf with
      | .error m => .error (.synErr m)
      | .ok tree => validate_imports cfg tree

/-! ## SecureModuleLoader -/

/-- The exceptions `load_module` can surface, with their exact `str`. -/
inductive LoadErr where
  | fileNotFound (msg : String)
  | valueErr (msg : String)
  | importErr (msg : String)
deriving DecidableEq

def loadErrStr : LoadErr → String
  | .fileNotFound m => m
  | .valueErr m => m
  | .importErr m => m

/-- Result of `load_module`, instrumented with whether the dynamic-load step
(`spec.loader.exec_module`) was ever attempted — the observable for
"no module-level side effect of the candidate source". -/
structure LoadOutcome where
  result : Except LoadErr Unit
  execAttempted : Bool

/-- `SecureModuleLoader.load_module`: existence and regular-file guards raise
unwrapped; everything inside the `try` (validation, spec creation, dynamic
load under the alarm) is re-raised as
`ImportError("Error loading module: " + str(e))`. -/
def load_module (cfg : SecurityConfig) (f : PyFile) : LoadOutcome :=
  if !f.pathExists then
    ⟨.error (.fileNotFound ("Archivo no encontrado: " ++ f.path)), false⟩
  else if !f.isfile then
    ⟨.error (.valueErr ("La ruta no es un archivo: " ++ f.path)), false⟩
  else
    match validate_code cfg f with
    | .error e =>
      ⟨.error (.importErr ("Error loading module: " ++ secErrStr e)), false⟩
    | .ok _ =>
      if !f.specLoadOk then
        ⟨.error (.importErr ("Error loading module: No se pudo crear spec para " ++ f.path)), false⟩
      else
        match f.execRaises with
        | some m => ⟨.error (.importErr ("Error loading module: " ++ m)), true⟩
        | Option.none => ⟨.ok (), true⟩

/-! ## SafeParameterValidator -/

/-- `isinstance(v, ann)`: `.error` models the annotations on which
`isinstance` itself raises.  In Python `bool` is a subclass of `int`. -/
def annCheck (v : Value) (a : PyAnn) : Except Unit Bool :=
  match a with
  | .unchecked => .error ()
  | .int => .ok (match v with | .int _ => true | .bool _ => true | _ => false)
  | .float => .ok (match v with | .float _ => true | _ => false)
  | .str => .ok (match v with | .str _ => true | _ => false)
  | .bool => .ok (match v with | .bool _ => true | _ => false)
  | .list => .ok (match v with | .list _ => true | _ => false)

/-- `signature.bind(*args)` followed by `apply_defaults`, for positional
arguments against positional-or-keyword parameters (the shape `def` produces
here): a `TypeError` for an arity mismatch, else the ordered bound list.
Python quotes the missing parameter name in its message; the quotes are
elided here. -/
def pyBind (params : List ParamSpec) (args : List Value) :
    Except String (List (ParamSpec × Value)) :=
  if params.length < args.length then .error "too many positional arguments"
  else
    match (params.drop args.length).find? (fun p => p.default.isNone) with
    | some p => .error ("missing a required argument: " ++ p.name)
    | Option.none =>
      .ok (params.zip args ++
        (params.drop args.length).map (fun p => (p, p.default.getD Value.none)))

def pyTypeName : Value → String
  | .int _ => "int"
  | .float _ => "float"
  | .str _ => "str"
  | .bool _ => "bool"
  | .none => "NoneType"
  | .list _ => "list"

/-- The conformance tag the loop stores on one `param_info` record: absent
when the parameter has no annotation, else `passed` / `failed` /
`validation_error` (the source suffixes the exception text to the latter;
that host-rendered text is elided). -/
def paramTag (v : Value) (a : Option PyAnn) : Option String :=
  match a with
  | Option.none => Option.none
  | some a =>
    match annCheck v a with
    | .ok true => some "passed"
    | .ok false => some "failed"
    | .error () => some "validation_error"

/-- One `param_info` record as the loop builds it.  The source additionally
stores `str(value)[:100]` and `sys.getsizeof(value)` (host-rendering oracles,
unobservable because the record is discarded — see
`validate_function_parameters`); they are elided here. -/
structure ParamInfo where
  type : String
  type_validation : Option String
deriving DecidableEq

structure ParamValidation where
  function_name : String
  parameters : List (String × ParamInfo)
  validation_status : String
  error : Option String
deriving DecidableEq

/-- `SafeParameterValidator.validate_function_parameters`.  The loop builds a
`param_info` record per bound parameter but never inserts it into
`parameters` (a dead store in the source), so `parameters` stays the empty
dict it was initialised to; only `validation_status` is updated, and only by
a failed `isinstance` check (`validation_error` does not change it).  A
binding `TypeError` yields status `failed` with the message retained. -/
def validate_function_parameters (fd : FuncDef) (args : List Value) : ParamValidation :=
  match pyBind fd.params args with
  | .error msg =>
    { function_name := fd.name, parameters := [], validation_status := "failed",
      error := some msg }
  | .ok bound =>
    let _param_infos : List (String × ParamInfo) :=
      bound.map (fun p => (p.1.name, ⟨pyTypeName p.2, paramTag p.2 p.1.ann⟩))
    let status := bound.foldl
      (fun st p =>
        match p.1.ann with
        | Option.none => st
        | some a =>
          match annCheck p.2 a with
          | .ok false => "failed"
          | _ => st) "passed"
    { function_name := fd.name, parameters := [], validation_status := status,
      error := Option.none }

/-! ## SafeTestRunner -/

/-- A value stored in a `test_results` inner dict: the boolean verdict of a
compared execution, or an outcome string. -/
inductive CaseResult where
  | bool (b : Bool)
  | str (s : String)
deriving DecidableEq

/-- The float literal `1e-9`, idealised as the exact rational. -/
def tolerance : Rat := 1 / 1000000000

/-- The comparison step of `run_tests`: `isinstance(result, (int, float))`
(booleans included, `bool` being a subclass of `int`) selects the
absolute-difference test against 1e-9, anything else Python `==` against the
(float) expected value. -/
def compareResult (result : Value) (expected : Rat) : Bool :=
  if isPyNumeric result then decide (|toRat result - expected| < tolerance)
  else pyEq result (.float expected)

/-- One test case of `run_tests`, instrumented with whether the candidate
function was invoked: parse; on `None` record the invalid-format string (no
validation record); else validate, and only on overall status `passed`
invoke under the 5-second alarm and record timeout / raised error / compared
verdict; on any other status record `"Failed parameter validation"` without
invoking. -/
def runCase (fd : FuncDef) (tc : TestCase) : CaseResult × Option ParamValidation × Bool :=
  match _parse_function_call tc.input with
  | Option.none => (.str "Error: Formato de prueba inválido", Option.none, false)
  | some args =>
    let pv := validate_function_parameters fd args
    if pv.validation_status == "passed" then
      match fd.behavior args with
      | .timeout => (.str "Error: Timeout", some pv, true)
      | .raises m => (.str ("Error: " ++ m), some pv, true)
      | .ok v => (.bool (compareResult v tc.expected), some pv, true)
    else (.str "Failed parameter validation", some pv, false)

/-- Python dict insertion: overwrite in place, else append. -/
def insertKV {α : Type} (k : String) (v : α) : List (String × α) → List (String × α)
  | [] => [(k, v)]
  | (k2, v2) :: t => if k2 == k then (k, v) :: t else (k2, v2) :: insertKV k v t

structure RunData where
  test_results : List (String × List (String × CaseResult))
  parameter_validations : List (String × List (String × ParamValidation))

/-- The per-function case loop: for each extracted case, record the
validation (when one was computed) and the outcome, keyed by the call
text. -/
def processCases (fd : FuncDef) (tcs : List TestCase) :
    List (String × CaseResult) × List (String × ParamValidation) :=
  tcs.foldl
    (fun acc tc =>
      let r := runCase fd tc
      let pvs := match r.2.1 with
        | some pv => insertKV tc.input pv acc.2
        | Option.none => acc.2
      (insertKV tc.input r.1 acc.1, pvs))
    ([], [])

/-- `SafeTestRunner.run_tests`: load (any failure is caught and returned as
an error dict with `str(e)`), re-read and re-parse the source, then for each
top-level function definition that the module exposes and whose docstring
yields at least one case, run the cases.  Functions with zero extracted
cases are absent from both maps. -/
def run_tests (cfg : SecurityConfig) (f : PyFile) : Except String RunData :=
  match (load_module cfg f).result with
  | .error e => .error (loadErrStr e)
  | .ok _ =>
    match f.astOf with
    | .error m => .error m
    | .ok tree =>
      .ok (tree.body.foldl
        (fun acc n =>
          match n with
          | .funcDef fd _ =>
            if fd.inModule then
              let tcs := extract_test_cases fd.docstring
              if tcs.isEmpty then acc
              else
                let r := processCases fd tcs
                ⟨insertKV fd.name r.1 acc.test_results,
                 insertKV fd.name r.2 acc.parameter_validations⟩
            else acc
          | _ => acc)
        ⟨[], []⟩)

/-! ## PerformanceAnalyzer -/

/-- One function as the sampling loop sees it: `hasattr` on the module, its
declared parameter count, and whether its k-th invocation raises. -/
structure PerfFunc where
  present : Bool
  nparams : Nat
  raisesAt : Nat → Bool

/-- The inner `for _ in range(iterations)` loop starting at call index `k`
with `n` iterations left: each successful call increments
`executed_operations`; a raise propagates out of the loop (the `try` wraps
the whole loop), so the remaining iterations are not attempted.  Returns
(successful operations, attempted calls). -/
def sampleCalls (raisesAt : Nat → Bool) : Nat → Nat → Nat × Nat
  | _, 0 => (0, 0)
  | k, n + 1 =>
    if raisesAt k then (0, 1)
    else
      let r := sampleCalls raisesAt (k + 1) n
      (r.1 + 1, r.2 + 1)

/-- One iteration of the outer function loop: absent functions are skipped,
functions with parameters are silently skipped, zero-parameter functions are
sampled. -/
def samplePerFunc (f : PerfFunc) (iters : Nat) : Nat × Nat :=
  if f.present && f.nparams == 0 then sampleCalls f.raisesAt 0 iters else (0, 0)

/-- The outer loop, threading the `executed_operations` accumulator and
recording each function's (operations, attempts) trace. -/
def perfLoop (iters : Nat) (acc : Nat) : List PerfFunc → Nat × List (Nat × Nat)
  | [] => (acc, [])
  | f :: t =>
    let r := samplePerFunc f iters
    let rest := perfLoop iters (acc + r.1) t
    (rest.1, r :: rest.2)

/-- The control-flow observables of the metrics dict (real-time and memory
measurements are not modelled), plus the per-function instrumentation
trace. -/
structure PerfMetrics where
  iterations : Nat
  functions_tested : Nat
  operations_executed : Nat
  perFunction : List (Nat × Nat)

/-- `PerformanceAnalyzer.measure_performance`: the iteration request is
clamped to 1000, then every listed function is visited in order. -/
def measure_performance (funcs : List PerfFunc) (iterations : Nat) : PerfMetrics :=
  let iters := if iterations > 1000 then 1000 else iterations
  let r := perfLoop iters 0 funcs
  ⟨iters, funcs.length, r.1, r.2⟩

/-! ## UnityAnalyzer -/

def summarizeCase (acc : Nat × Nat × Nat × Nat) (r : CaseResult) : Nat × Nat × Nat × Nat :=
  match r with
  | .bool true => (acc.1 + 1, acc.2.1 + 1, acc.2.2.1, acc.2.2.2)
  | .bool false => (acc.1 + 1, acc.2.1, acc.2.2.1 + 1, acc.2.2.2)
  | _ => (acc.1 + 1, acc.2.1, acc.2.2.1, acc.2.2.2 + 1)

/-- Round half to even, as Python `round`. -/
def roundHalfEven (q : Rat) : Int :=
  let n := ⌊q⌋
  let f := q - (n : Rat)
  if f < 1 / 2 then n
  else if 1 / 2 < f then n + 1
  else if n % 2 = 0 then n else n + 1

/-- Python `round(x, 2)` on the exact rational model. -/
def pyRound2 (q : Rat) : Rat := ((roundHalfEven (q * 100) : Rat)) / 100

structure TestSummary where
  total_tests : Nat
  passed_tests : Nat
  failed_tests : Nat
  error_tests : Nat
  pass_rate : Rat
deriving DecidableEq

/-- `UnityAnalyzer._calculate_test_summary`: every inner value counts once —
as passed iff it `is True`, failed iff it `is False`, error otherwise (the
`isinstance(func_results, dict)` guard always holds on the maps this program
builds, whose inner values are dicts by construction). -/
def _calculate_test_summary
    (test_results : List (String × List (String × CaseResult))) : TestSummary :=
  let c := test_results.foldl
    (fun acc fr => fr.2.foldl (fun a p => summarizeCase a p.2) acc) (0, 0, 0, 0)
  ⟨c.1, c.2.1, c.2.2.1, c.2.2.2,
    if c.1 > 0 then pyRound2 ((c.2.1 : Rat) / (c.1 : Rat) * 100) else 0⟩

/-- The report dict: `Option` fields model keys that may be absent.  The
timestamps and the traceback text are host oracles; only the presence of the
`traceback` key is kept. -/
structure Report where
  file_path : String
  config_max_execution_time : Nat
  config_max_memory_mb : Nat
  config_max_file_size_mb : Nat
  error : Option String := Option.none
  hasTraceback : Bool := false
  status : Option String := Option.none
  tests : Option (List (String × List (String × CaseResult))) := Option.none
  parameter_validations : Option (List (String × List (String × ParamValidation))) := Option.none
  performance : Option PerfMetrics := Option.none
  test_summary : Option TestSummary := Option.none
  functions_found : Option (List String) := Option.none

/-- `UnityAnalyzer.generate_performance_report`: when `run_tests` returned an
error dict, the report gains only the `error` key and is returned at once —
no `status`, no `tests`.  Otherwise the module is loaded again, performance
is sampled over the top-level definitions, and the report is completed with
status `success`; an exception in that stage would instead set `error`,
`traceback` and status `error`. -/
def generate_performance_report (cfg : SecurityConfig) (f : PyFile) : Report :=
  let base : Report := {
    file_path := f.path
    config_max_execution_time := cfg.max_execution_time
    config_max_memory_mb := cfg.max_memory_mb
    config_max_file_size_mb := cfg.max_file_size_mb }
  match run_tests cfg f with
  | .error e => { base with error := some e }
  | .ok data =>
    match (load_module cfg f).result with
    | .error e =>
      { base with error := some (loadErrStr e), hasTraceback := true, status := some "error" }
    | .ok _ =>
      match f.astOf with
      | .error m =>
        { base with error := some m, hasTraceback := true, status := some "error" }
      | .ok tree =>
        let functions := tree.body.filterMap fun n =>
          match n with
          | .funcDef fd _ => some fd.name
          | _ => Option.none
        let perfFuncs := tree.body.filterMap fun n =>
          match n with
          | .funcDef fd _ => some (⟨fd.inModule, fd.params.length, fd.perfRaisesAt⟩ : PerfFunc)
          | _ => Option.none
        { base with
          tests := some data.test_results
          parameter_validations := some data.parameter_validations
          performance := some (measure_performance perfFuncs 100)
          test_summary := some (_calculate_test_summary data.test_results)
          functions_found := some functions
          status := some "success" }

/-! ## Concrete fixtures -/

/-- A candidate file whose only validation failure is a disallowed import
(`numpy` is not in the default allow-list and the source text matches no
forbidden pattern). -/
def numpyFile : PyFile :=
  { path := "candidate.py"
    pathExists := true
    isfile := true
    size := 12
    content := "import numpy"
    astOf := .ok ⟨[.stmtImp (.imp ["numpy"])]⟩
    specLoadOk := true
    execRaises := Option.none }

/-- A candidate file whose source text hits the forbidden pattern
`exec\s*\(`. -/
def execFile : PyFile :=
  { path := "payload.py"
    pathExists := true
    isfile := true
    size := 9
    content := "exec(src)"
    astOf := .ok ⟨[.other]⟩
    specLoadOk := true
    execRaises := Option.none }

/-- `def square(x: int): return x * x` as the runner sees it. -/
def squareFunc : FuncDef :=
  { name := "square"
    params := [⟨"x", some .int, Option.none⟩]
    docstring := some "square(4) == 16"
    inModule := true
    behavior := fun args =>
      match args with
      | [.int n] => .ok (.int (n * n))
      | _ => .raises "TypeError"
    perfRaisesAt := fun _ => false }

def squareTC : TestCase := ⟨"square(4)", 16, ""⟩

/-- A function expecting an `int`, exercised with a string argument. -/
def strArgFunc : FuncDef :=
  { name := "f"
    params := [⟨"x", some .int, Option.none⟩]
    docstring := Option.none
    inModule := true
    behavior := fun _ => .ok (.int 0)
    perfRaisesAt := fun _ => false }

def strTC : TestCase := ⟨"f(\"a\")", 0, ""⟩

/-- A zero-parameter function whose first performance invocation raises. -/
def raisingPerfFunc : PerfFunc := ⟨true, 0, fun k => k == 0⟩

/-- A zero-parameter function that never raises. -/
def steadyPerfFunc : PerfFunc := ⟨true, 0, fun _ => false⟩

/-- All inner values of a test-results map, in order. -/
def allCaseResults (rs : List (String × List (String × CaseResult))) : List CaseResult :=
  (rs.map (fun fr => fr.2.map Prod.snd)).flatten

/-- `result is True`. -/
def isPassed : CaseResult → Bool
  | .bool true => true
  | _ => false

/-- `result is False`. -/
def isFailed : CaseResult → Bool
  | .bool false => true
  | _ => false

/-- Neither `is True` nor `is False` (on this program's result values, the
outcome strings). -/
def isErrorCase : CaseResult → Bool
  | .str _ => true
  | _ => false

/-! ## Helper lemmas -/

lemma perfLoop_trace (iters : Nat) (fs : List PerfFunc) :
    ∀ acc, (perfLoop iters acc fs).2 = fs.map (fun f => samplePerFunc f iters) := by
  induction fs with
  | nil => intro acc; rfl
  | cons f t ih => intro acc; simp [perfLoop, ih]

lemma sampleCalls_first_raise (raisesAt : Nat → Bool) :
    ∀ (k i n : Nat), k < n → raisesAt (i + k) = true →
      (∀ j, j < k → raisesAt (i + j) = false) →
      sampleCalls raisesAt i n = (k, k + 1) := by
  intro k
  induction k with
  | zero =>
    intro i n hk hr _
    match n, hk with
    | n + 1, _ => simp [sampleCalls, Nat.add_zero] at hr ⊢; simp [hr]
  | succ k ih =>
    intro i n hk hr hb
    match n, hk with
    | n + 1, hk =>
      have h0 : raisesAt i = false := by
        have := hb 0 (Nat.succ_pos k)
        simpa using this
      have hkn : k < n := Nat.lt_of_succ_lt_succ hk
      have hr2 : raisesAt (i + 1 + k) = true := by
        have : i + 1 + k = i + (k + 1) := by omega
        rw [this]; exact hr
      have hb2 : ∀ j, j < k → raisesAt (i + 1 + j) = false := by
        intro j hj
        have : i + 1 + j = i + (j + 1) := by omega
        rw [this]; exact hb (j + 1) (Nat.succ_lt_succ hj)
      have := ih (i + 1) n hkn hr2 hb2
      simp [sampleCalls, h0, this]

lemma foldl_summarize (l : List CaseResult) :
    ∀ acc : Nat × Nat × Nat × Nat, l.foldl summarizeCase acc =
      (acc.1 + l.length, acc.2.1 + l.countP isPassed,
       acc.2.2.1 + l.countP isFailed, acc.2.2.2 + l.countP isErrorCase) := by
  induction l with
  | nil => intro acc; simp
  | cons r t ih =>
    intro acc
    cases r with
    | bool b =>
      cases b <;>
        simp [summarizeCase, ih, List.countP_cons, isPassed, isFailed, isErrorCase] <;> omega
    | str s =>
      simp [summarizeCase, ih, List.countP_cons, isPassed, isFailed, isErrorCase]
      omega

lemma allCaseResults_cons (fr : String × List (String × CaseResult))
    (t : List (String × List (String × CaseResult))) :
    allCaseResults (fr :: t) = fr.2.map Prod.snd ++ allCaseResults t := by
  simp [allCaseResults]

lemma foldl_outer (rs : List (String × List (String × CaseResult))) :
    ∀ acc : Nat × Nat × Nat × Nat,
      rs.foldl (fun acc fr => fr.2.foldl (fun a p => summarizeCase a p.2) acc) acc =
      (acc.1 + (allCaseResults rs).length,
       acc.2.1 + (allCaseResults rs).countP isPassed,
       acc.2.2.1 + (allCaseResults rs).countP isFailed,
       acc.2.2.2 + (allCaseResults rs).countP isErrorCase) := by
  induction rs with
  | nil => intro acc; simp [allCaseResults]
  | cons fr t ih =>
    intro acc
    have hinner : fr.2.foldl (fun a p => summarizeCase a p.2) acc =
        (fr.2.map Prod.snd).foldl summarizeCase acc := by
      rw [List.foldl_map]
    simp only [List.foldl_cons, hinner, foldl_summarize, ih, allCaseResults_cons,
      List.length_append, List.countP_append, Prod.ext_iff]
    omega

lemma partition_three (l : List CaseResult) :
    l.length = l.countP isPassed + l.countP isFailed + l.countP isErrorCase := by
  induction l with
  | nil => simp
  | cons r t ih =>
    cases r with
    | bool b =>
      cases b <;> simp [List.countP_cons, isPassed, isFailed, isErrorCase] <;> omega
    | str s =>
      simp [List.countP_cons, isPassed, isFailed, isErrorCase]
      omega

/-! ## Claim theorems -/

/-- C1: for every policy and file, whenever `CodeValidator.validate_code`
fails (oversized file, forbidden pattern, syntax error or disallowed
import), `SecureModuleLoader.load_module` returns an error and the
dynamic-load step (`exec_module`) is never attempted — the model's
observable for "no module-level side effect of the candidate source". -/
theorem load_module_no_dynamic_load_on_validation_failure
    (cfg : SecurityConfig) (f : PyFile) (e : SecErr)
    (h : validate_code cfg f = .error e) :
    (load_module cfg f).execAttempted = false ∧
      ∃ le, (load_module cfg f).result = .error le := by
  unfold load_module
  cases hex : f.pathExists with
  | false => simp
  | true =>
    cases hif : f.isfile with
    | false => simp
    | true => simp [h]

theorem load_module_no_dynamic_load_witness :
    validate_code defaultConfig execFile = .error (.dangerousPattern "exec\\s*\\(") ∧
    ((load_module defaultConfig execFile).execAttempted = false ∧
      ∃ le, (load_module defaultConfig execFile).result = .error le) :=
  ⟨rfl, load_module_no_dynamic_load_on_validation_failure defaultConfig execFile
    (.dangerousPattern "exec\\s*\\(") rfl⟩

/-- C2, counterexample: the claimed list round-trip fails on the code —
`_parse_function_call` splits the argument text at every comma before
classifying, so `parse("f([1,2,3])")` returns the failure value `None`, not
the tuple `([1,2,3])`. -/
theorem parse_list_roundtrip_counterexample :
    _parse_function_call "f([1,2,3])" = Option.none ∧
      (Option.none : Option (List Value)) ≠
        some [Value.list [Value.int 1, Value.int 2, Value.int 3]] :=
  ⟨rfl, fun h => Option.noConfusion h⟩

/-- C2, amended: the integer, string and boolean round-trips hold and
`f(g(1))` is unparseable, but `f([1,2,3])` is unparseable as well (the
comma split dismembers a bracketed list containing commas; only
comma-free bracketed lists survive). -/
theorem parse_roundtrip_amended :
    _parse_function_call "f(1,2)" = some [Value.int 1, Value.int 2] ∧
    _parse_function_call "f(\"a\",\"b\")" = some [Value.str "a", Value.str "b"] ∧
    _parse_function_call "f(true,false)" = some [Value.bool true, Value.bool false] ∧
    _parse_function_call "f([1,2,3])" = Option.none ∧
    _parse_function_call "f(g(1))" = Option.none :=
  ⟨rfl, rfl, rfl, rfl, rfl⟩

/-- C3: for an extracted and successfully parsed test case, the candidate
function is invoked only when the overall validation status is `passed`;
under any other status the recorded outcome is the string
`"Failed parameter validation"` (with the validation record kept) and the
function is never called. -/
theorem no_invocation_without_passed_validation
    (fd : FuncDef) (tc : TestCase) (args : List Value)
    (hp : _parse_function_call tc.input = some args) :
    ((runCase fd tc).2.2 = true →
      (validate_function_parameters fd args).validation_status = "passed") ∧
    ((validate_function_parameters fd args).validation_status ≠ "passed" →
      runCase fd tc =
        (.str "Failed parameter validation",
         some (validate_function_parameters fd args), false)) := by
  unfold runCase
  rw [hp]
  by_cases hpv : (validate_function_parameters fd args).validation_status = "passed"
  · constructor
    · intro _; exact hpv
    · intro hne; exact absurd hpv hne
  · have hbeq : ((validate_function_parameters fd args).validation_status == "passed") = false :=
      beq_eq_false_iff_ne.mpr hpv
    constructor
    · intro hcalled
      simp only [hbeq, if_neg Bool.false_ne_true] at hcalled
      exact absurd hcalled (by simp)
    · intro _
      simp [hbeq]

theorem no_invocation_witness :
    _parse_function_call strTC.input = some [Value.str "a"] ∧
    (validate_function_parameters strArgFunc [Value.str "a"]).validation_status ≠ "passed" ∧
    runCase strArgFunc strTC =
      (.str "Failed parameter validation",
       some (validate_function_parameters strArgFunc [Value.str "a"]), false) :=
  ⟨rfl, by decide,
    (no_invocation_without_passed_validation strArgFunc strTC [Value.str "a"] rfl).2
      (by decide)⟩

/-- C4: in the comparison step, a test case that reached execution and got a
result back passes by the absolute-difference bound `1e-9` when the result
is numeric — `isinstance(result, (int, float))`, which includes booleans
since `bool` subclasses `int` — and by Python structural equality against
the expected value otherwise. -/
theorem compare_step_semantics
    (fd : FuncDef) (tc : TestCase) (args : List Value) (v : Value)
    (hp : _parse_function_call tc.input = some args)
    (hv : (validate_function_parameters fd args).validation_status = "passed")
    (hb : fd.behavior args = .ok v) :
    (runCase fd tc).1 = .bool (compareResult v tc.expected) ∧
    (isPyNumeric v = true →
      (compareResult v tc.expected = true ↔ |toRat v - tc.expected| < tolerance)) ∧
    (isPyNumeric v = false →
      (compareResult v tc.expected = true ↔ pyEq v (.float tc.expected) = true)) := by
  refine ⟨?_, ?_, ?_⟩
  · unfold runCase
    rw [hp]
    simp [hv, hb]
  · intro hnum
    unfold compareResult
    rw [hnum]
    simp
  · intro hnum
    unfold compareResult
    rw [hnum]
    simp

theorem compare_step_semantics_witness :
    _parse_function_call squareTC.input = some [Value.int 4] ∧
    (validate_function_parameters squareFunc [Value.int 4]).validation_status = "passed" ∧
    squareFunc.behavior [Value.int 4] = .ok (Value.int 16) ∧
    ((runCase squareFunc squareTC).1 = .bool (compareResult (Value.int 16) squareTC.expected) ∧
     (isPyNumeric (Value.int 16) = true →
       (compareResult (Value.int 16) squareTC.expected = true ↔
         |toRat (Value.int 16) - squareTC.expected| < tolerance)) ∧
     (isPyNumeric (Value.int 16) = false →
       (compareResult (Value.int 16) squareTC.expected = true ↔
         pyEq (Value.int 16) (.float squareTC.expected) = true))) :=
  ⟨rfl, rfl, rfl,
    compare_step_semantics squareFunc squareTC [Value.int 4] (Value.int 16) rfl rfl rfl⟩

/-- C5, counterexample: for a file whose only validation failure is the
disallowed import `numpy`, the report's `error` names the import and the
`tests` key is absent — but the `status` key is absent altogether (the
error-dict path returns before any `status` is set), not `"error"` as
claimed. -/
theorem import_failure_report_counterexample :
    validate_code defaultConfig numpyFile = .error (.importNotAllowed "numpy") ∧
    (generate_performance_report defaultConfig numpyFile).status = Option.none ∧
    (generate_performance_report defaultConfig numpyFile).status ≠ some "error" ∧
    (generate_performance_report defaultConfig numpyFile).error =
      some "Error loading module: Importación no permitida: numpy" ∧
    (generate_performance_report defaultConfig numpyFile).tests = Option.none :=
  ⟨rfl, rfl, by decide, rfl, rfl⟩

/-- C5, amended: for every file whose validation fails with a disallowed
import, the report's `error` field is the load wrapper text naming that
import, the `tests` key is absent — and so is the `status` key (no
`status="error"` is ever set on this path). -/
theorem import_failure_report_amended
    (cfg : SecurityConfig) (f : PyFile) (nm : String)
    (hex : f.pathExists = true) (hif : f.isfile = true)
    (hv : validate_code cfg f = .error (.importNotAllowed nm)) :
    (generate_performance_report cfg f).error =
      some ("Error loading module: " ++ secErrStr (.importNotAllowed nm)) ∧
    (generate_performance_report cfg f).status = Option.none ∧
    (generate_performance_report cfg f).tests = Option.none := by
  have hload : load_module cfg f =
      ⟨.error (.importErr ("Error loading module: " ++ secErrStr (.importNotAllowed nm))),
        false⟩ := by
    unfold load_module
    rw [hex, hif, hv]
    rfl
  have hrt : run_tests cfg f =
      .error ("Error loading module: " ++ secErrStr (.importNotAllowed nm)) := by
    unfold run_tests
    rw [hload]
    rfl
  unfold generate_performance_report
  rw [hrt]
  exact ⟨rfl, rfl, rfl⟩

theorem import_failure_report_amended_witness :
    numpyFile.pathExists = true ∧ numpyFile.isfile = true ∧
    validate_code defaultConfig numpyFile = .error (.importNotAllowed "numpy") ∧
    ((generate_performance_report defaultConfig numpyFile).error =
       some ("Error loading module: " ++ secErrStr (.importNotAllowed "numpy")) ∧
     (generate_performance_report defaultConfig numpyFile).status = Option.none ∧
     (generate_performance_report defaultConfig numpyFile).tests = Option.none) :=
  ⟨rfl, rfl, rfl,
    import_failure_report_amended defaultConfig numpyFile "numpy" rfl rfl rfl⟩

/-- C6, counterexample: a validation failure is not propagated verbatim —
for a file hitting the `exec\s*\(` pattern, the validator raises a
`SecurityError` whose text is the pattern message, while the caller of
`load_module` observes an `ImportError` whose message is that text behind
the `"Error loading module: "` wrapper: a different kind and a different
message. -/
theorem load_error_not_verbatim_counterexample :
    validate_code defaultConfig execFile = .error (.dangerousPattern "exec\\s*\\(") ∧
    (load_module defaultConfig execFile).result =
      .error (.importErr "Error loading module: Patrón peligroso detectado: exec\\s*\\(") ∧
    "Error loading module: Patrón peligroso detectado: exec\\s*\\(" ≠
      secErrStr (.dangerousPattern "exec\\s*\\(") :=
  ⟨rfl, rfl, by decide⟩

/-- C6, amended: `load_module` surfaces every validation failure re-wrapped
as `ImportError("Error loading module: " + str(e))` — the original message
is preserved as a suffix but neither the exception kind nor the message is
the validator's own. -/
theorem load_module_wraps_validation_error
    (cfg : SecurityConfig) (f : PyFile) (e : SecErr)
    (hex : f.pathExists = true) (hif : f.isfile = true)
    (hv : validate_code cfg f = .error e) :
    (load_module cfg f).result =
      .error (.importErr ("Error loading module: " ++ secErrStr e)) := by
  unfold load_module
  rw [hex, hif, hv]
  rfl

theorem load_module_wraps_validation_error_witness :
    execFile.pathExists = true ∧ execFile.isfile = true ∧
    validate_code defaultConfig execFile = .error (.dangerousPattern "exec\\s*\\(") ∧
    (load_module defaultConfig execFile).result =
      .error (.importErr ("Error loading module: " ++
        secErrStr (.dangerousPattern "exec\\s*\\("))) :=
  ⟨rfl, rfl, rfl,
    load_module_wraps_validation_error defaultConfig execFile
      (.dangerousPattern "exec\\s*\\(") rfl rfl rfl⟩

/-- C7 (code bug): binding succeeds for `square(4)` — exactly one parameter
is bound and its `int` conformance check passes, the overall status is
`passed` — yet the returned record's `parameters` map is empty: the loop
builds each `param_info` record but never inserts it, so the binding never
contains the per-parameter records the spec describes. -/
theorem parameter_records_discarded :
    pyBind squareFunc.params [Value.int 4] =
      .ok [(⟨"x", some .int, Option.none⟩, Value.int 4)] ∧
    (validate_function_parameters squareFunc [Value.int 4]).validation_status = "passed" ∧
    (validate_function_parameters squareFunc [Value.int 4]).parameters = [] :=
  ⟨rfl, rfl, rfl⟩

/-- C8: extraction never deduplicates across the three pattern families —
the output is exactly the `==` matches, then the `->` matches, then the
transcript matches, each family in document scan order; concretely, a
docstring giving the same call under `==` and under `->` yields that
(call, expected) pair twice. -/
theorem extraction_no_dedup :
    (∀ d : String, extract_test_cases (some d) =
      if d.isEmpty then [] else
        (findall .eqeq d.data).map (mkTestCase .eqeq) ++
        (findall .arrow d.data).map (mkTestCase .arrow) ++
        (findall .transcript d.data).map (mkTestCase .transcript)) ∧
    extract_test_cases (some "f(1) == 2\nf(1) -> 2") =
      [⟨"f(1)", 2, patSource .eqeq⟩, ⟨"f(1)", 2, patSource .arrow⟩] := by
  constructor
  · intro d
    unfold extract_test_cases
    by_cases hd : d.isEmpty <;>
      simp [hd, List.foldl_cons, List.foldl_nil]
  · rfl

/-- C9, counterexample: a zero-parameter function whose first invocation
raises is sampled exactly once out of the requested 3 iterations — the
remaining iterations are NOT attempted (the `try` wraps the whole loop, and
the raise aborts it) — while the next function still gets its full 3
iterations: tolerant across functions, fail-fast within one. -/
theorem sampling_abort_counterexample :
    measure_performance [raisingPerfFunc, steadyPerfFunc] 3 =
      ⟨3, 2, 3, [(0, 1), (3, 3)]⟩ ∧ (1 : Nat) ≠ 3 :=
  ⟨rfl, by decide⟩

/-- C9, amended: each listed function is sampled independently of the
others' failures (the trace is a pointwise map), and within one function a
raise at iteration k ends its sampling at attempt k+1 with k successful
operations — the remaining iterations of that function are skipped. -/
theorem sampling_partial_failure_semantics :
    (∀ (fs : List PerfFunc) (iterations : Nat),
      (measure_performance fs iterations).perFunction =
        fs.map (fun f => samplePerFunc f (if iterations > 1000 then 1000 else iterations))) ∧
    (∀ (f : PerfFunc) (n k : Nat), f.present = true → f.nparams = 0 →
      k < n → f.raisesAt k = true → (∀ j, j < k → f.raisesAt j = false) →
      samplePerFunc f n = (k, k + 1)) := by
  constructor
  · intro fs iterations
    exact perfLoop_trace _ fs 0
  · intro f n k hpre hnp hk hr hb
    unfold samplePerFunc
    rw [hpre, hnp]
    simp only [Nat.zero_lt_succ, beq_self_eq_true, Bool.and_self, if_true, ite_true,
      Bool.true_and]
    exact sampleCalls_first_raise f.raisesAt k 0 n hk (by simpa using hr)
      (by intro j hj; simpa using hb j hj)

theorem sampling_partial_failure_witness :
    raisingPerfFunc.present = true ∧ raisingPerfFunc.nparams = 0 ∧
    0 < 3 ∧ raisingPerfFunc.raisesAt 0 = true ∧
    samplePerFunc raisingPerfFunc 3 = (0, 1) :=
  ⟨rfl, rfl, by decide, rfl,
    sampling_partial_failure_semantics.2 raisingPerfFunc 3 0 rfl rfl (by decide) rfl
      (fun j hj => absurd hj (Nat.not_lt_zero j))⟩

/-- C10: the summary partitions the cases exactly — every inner value counts
once, as passed iff it `is True`, failed iff it `is False`, error
otherwise — and `pass_rate` is `passed/total*100` rounded to two decimals,
with `0` when there are no tests. -/
theorem test_summary_partition (rs : List (String × List (String × CaseResult))) :
    (_calculate_test_summary rs).total_tests =
      (_calculate_test_summary rs).passed_tests +
        (_calculate_test_summary rs).failed_tests +
        (_calculate_test_summary rs).error_tests ∧
    (_calculate_test_summary rs).passed_tests = (allCaseResults rs).countP isPassed ∧
    (_calculate_test_summary rs).failed_tests = (allCaseResults rs).countP isFailed ∧
    (_calculate_test_summary rs).error_tests = (allCaseResults rs).countP isErrorCase ∧
    (_calculate_test_summary rs).pass_rate =
      (if (_calculate_test_summary rs).total_tests = 0 then 0 else
        pyRound2 (((_calculate_test_summary rs).passed_tests : Rat) /
          ((_calculate_test_summary rs).total_tests : Rat) * 100)) := by
  have hc := foldl_outer rs (0, 0, 0, 0)
  unfold _calculate_test_summary
  rw [hc]
  simp only [Nat.zero_add]
  refine ⟨partition_three _, trivial, trivial, trivial, ?_⟩
  by_cases hL : (allCaseResults rs).length = 0
  · simp [hL]
  · have hpos : (allCaseResults rs).length > 0 := Nat.pos_of_ne_zero hL
    simp [hL, hpos]

end Unity
